import Mathlib

/-!
Shallow embedding of the escape-game monitoring front-end scripts.

The repository contains three near-duplicate browser scripts:

  * `src/static/js/script.js` — the "toggle client": polls `/api/gamestate`,
    renders the mode into body classes, drives a 5000ms interval timer that
    alternates GREEN/RED and reports each flip via `POST /api/setmode`, and
    has an idle button that stops the timer and sets the server mode to IDLE.
    The second document of `src/unnamed/part_000` is the same client with an
    added audio cue; the functions cited by the claims are identical.
  * the first document of `src/unnamed/part_000` — a plain poller.
  * `src/unnamed/part_001` — the "restart poller": renders mode into the
    three classes green-bg/red-bg/game-over-bg (no idle class) and clears a
    penalty flash after 500ms.

The embedding models the DOM pieces the scripts touch as records of booleans
and strings, `setInterval`/`clearInterval` as explicit bookkeeping of live
interval handles, and `setTimeout` for the penalty flash as a multiset of
scheduled absolute removal times.
-/

namespace EscapeMonitor

/-- Game mode as reported by the server in `serverState.mode`.  The scripts
compare it against the string literals GREEN, RED and GAME_OVER; everything
else falls into the IDLE default branch. -/
inductive Mode where
  | GREEN
  | RED
  | GAME_OVER
  | IDLE
deriving DecidableEq

/-- The string the script writes into `modeText.textContent`. -/
def modeString : Mode → String
  | Mode.GREEN => "GREEN"
  | Mode.RED => "RED"
  | Mode.GAME_OVER => "GAME_OVER"
  | Mode.IDLE => "IDLE"

/-- The inline toggle `mode === 'GREEN' ? 'RED' : 'GREEN'` from the
setInterval callback of `startIntervalTimer`. -/
def flipMode (m : Mode) : Mode :=
  if m = Mode.GREEN then Mode.RED else Mode.GREEN

/-- An interval registered with `setInterval`: its runtime handle and its
period in milliseconds. -/
structure Interval where
  id : Nat
  period : Nat
deriving DecidableEq

/-- The closure captured by the `setInterval` callback in
`startIntervalTimer`: the interval handle stored in `localTimer` and the
closure-local `mode` variable. -/
structure TimerClosure where
  id : Nat
  mode : Mode
deriving DecidableEq

/-- The script-visible timer state: the fresh-handle counter of the runtime,
the set of live (created and not yet cleared) intervals, and the
module-scoped `localTimer` variable (`null` encoded as `none`). -/
structure ClientState where
  nextId : Nat
  activeIntervals : List Interval
  localTimer : Option TimerClosure
deriving DecidableEq

/-- Outgoing HTTP requests issued by the scripts. -/
inductive Request where
  | setMode (m : Mode)
  | start
  | restart
deriving DecidableEq

/-- Console log entries emitted on failures. -/
inductive LogEntry where
  | setModeFailed (m : Mode)
  | fetchFailed
deriving DecidableEq

/-- `INTERVAL_DURATION_MS = 5000` from script.js line 3. -/
def INTERVAL_DURATION_MS : Nat := 5000

/-- `setServerMode` (script.js lines 16-26): issues one `POST /api/setmode`
request; if the fetch fails (`ok = false`) the error is logged and nothing
else happens — no retry. -/
def setServerModeEff (mode : Mode) (ok : Bool) : List Request × List LogEntry :=
  ([Request.setMode mode], if ok then [] else [LogEntry.setModeFailed mode])

/-- `startIntervalTimer(currentMode)` (script.js lines 40-50): if `localTimer`
is set, return immediately; otherwise capture `mode = currentMode` in a
closure and register a `setInterval` with period `INTERVAL_DURATION_MS`. -/
def startIntervalTimer (currentMode : Mode) (c : ClientState) : ClientState :=
  match c.localTimer with
  | some _ => c
  | none =>
      { c with
        nextId := c.nextId + 1
        activeIntervals := ⟨c.nextId, INTERVAL_DURATION_MS⟩ :: c.activeIntervals
        localTimer := some ⟨c.nextId, currentMode⟩ }

/-- `stopIntervalTimer()` (script.js lines 52-57): if `localTimer` is set,
`clearInterval` it and reset `localTimer` to `null`; otherwise do nothing. -/
def stopIntervalTimer (c : ClientState) : ClientState :=
  match c.localTimer with
  | some τ =>
      { c with
        activeIntervals := c.activeIntervals.filter (fun iv => iv.id != τ.id)
        localTimer := none }
  | none => c

/-- The `clearInterval` calls a single `stopIntervalTimer()` invocation
performs on a given state (one when the timer is running, none otherwise). -/
def stopCancellations (c : ClientState) : List Nat :=
  match c.localTimer with
  | some τ => [τ.id]
  | none => []

/-- One firing of the `setInterval` callback registered by
`startIntervalTimer`: flip the closure-local `mode` and call
`setServerMode(mode)` with delivery outcome `ok`.  Returns the new client
state, the requests issued and the log entries produced.  When no timer is
live the callback cannot fire, so the state is unchanged. -/
def timerTick (c : ClientState) (ok : Bool) :
    ClientState × List Request × List LogEntry :=
  match c.localTimer with
  | none => (c, [], [])
  | some τ =>
      let m := flipMode τ.mode
      let eff := setServerModeEff m ok
      ({ c with localTimer := some ⟨τ.id, m⟩ }, eff.1, eff.2)

/-- Visible UI effects of the idle-button click handler, in program order. -/
inductive UiAction where
  | clearTimer (id : Nat)
  | request (r : Request)
deriving DecidableEq

/-- Whether a `UiAction` is an outgoing request. -/
def UiAction.isRequestAction : UiAction → Bool
  | UiAction.request _ => true
  | _ => false

/-- The idle-button click handler (script.js lines 109-112):
`stopIntervalTimer(); setServerMode('IDLE')`, in that order.  Returns the
resulting client state and the ordered list of visible actions. -/
def idleButtonClick (c : ClientState) : ClientState × List UiAction :=
  ((stopIntervalTimer c),
    (stopCancellations c).map UiAction.clearTimer
      ++ [UiAction.request (Request.setMode Mode.IDLE)])

/-- A `GET /api/gamestate` response body as consumed by script.js. -/
structure GameStateResp where
  mode : Mode
  penalty_flash : Bool
deriving DecidableEq

/-- The DOM pieces script.js manipulates: `modeText.textContent`, the four
mode background classes on `body`, the `hidden` class of the game-over
message, and the penalty-flash classes on `body` and the penalty text. -/
structure Dom where
  modeText : String
  greenBg : Bool
  redBg : Bool
  gameOverBg : Bool
  idleBg : Bool
  gameOverHidden : Bool
  penaltyFlash : Bool
  penaltyShow : Bool
deriving DecidableEq

/-- Full page state for script.js: DOM, timer client state, scheduled
penalty-flash removal times (absolute, in ms), and the current time. -/
structure PageState where
  dom : Dom
  client : ClientState
  pending : List Nat
  now : Nat
deriving DecidableEq

/-- The `switch (serverState.mode)` of `updateStateFromServer` (script.js
lines 71-88): add the background class for the mode, toggle the game-over
message, and start or stop the interval timer. -/
def applyMode (serverMode : Mode) (dom : Dom) (c : ClientState) :
    Dom × ClientState :=
  match serverMode with
  | Mode.GREEN | Mode.RED =>
      ((if serverMode = Mode.GREEN
          then { dom with greenBg := true, gameOverHidden := true }
          else { dom with redBg := true, gameOverHidden := true }),
        startIntervalTimer serverMode c)
  | Mode.GAME_OVER =>
      ({ dom with gameOverBg := true, gameOverHidden := false },
        stopIntervalTimer c)
  | Mode.IDLE =>
      ({ dom with idleBg := true, gameOverHidden := true },
        stopIntervalTimer c)

/-- The penalty-flash block of `updateStateFromServer` (script.js lines
91-99): when `penalty_flash` is set, add the flash classes and schedule a
`setTimeout` removing them 1000ms later. -/
def applyPenaltyFlash (flash : Bool) (dom : Dom) (pending : List Nat)
    (now : Nat) : Dom × List Nat :=
  if flash then
    ({ dom with penaltyFlash := true, penaltyShow := true },
      pending ++ [now + 1000])
  else (dom, pending)

/-- `updateStateFromServer` (script.js lines 61-105).  `resp = none` is the
catch path (network error or non-OK status): log and set the mode text to
the connection-error message.  On success: write the mode text, remove all
four mode background classes, run the mode switch, then the penalty-flash
block. -/
def updateStateFromServer (resp : Option GameStateResp) (s : PageState) :
    PageState :=
  match resp with
  | none => { s with dom := { s.dom with modeText := "接続エラー" } }
  | some serverState =>
      let cleared := { s.dom with
        modeText := modeString serverState.mode
        greenBg := false
        redBg := false
        gameOverBg := false
        idleBg := false }
      let md := applyMode serverState.mode cleared s.client
      let pf := applyPenaltyFlash serverState.penalty_flash md.1 s.pending s.now
      { dom := pf.1, client := md.2, pending := pf.2, now := s.now }

/-- Events the script.js page reacts to: a poll completing (successfully or
not), a scheduled penalty-flash timeout firing, the interval-timer callback
firing (with the delivery outcome of its report), the idle-button click,
direct timer start/stop operations, and time passing. -/
inductive Event where
  | poll (resp : Option GameStateResp)
  | fireFlash (t : Nat)
  | tick (ok : Bool)
  | clickIdle
  | start (m : Mode)
  | stop
  | advance (dt : Nat)

/-- Whether an event is a poll (used to quantify over "further polls"). -/
def isPollEvent : Event → Prop
  | Event.poll _ => True
  | _ => False

/-- Small-step semantics of the script.js page. A scheduled flash timeout
fires only if it is still pending; firing removes the flash classes and
consumes the schedule entry. -/
def step (s : PageState) : Event → PageState
  | Event.poll r => updateStateFromServer r s
  | Event.fireFlash t =>
      if t ∈ s.pending then
        { s with
          dom := { s.dom with penaltyFlash := false, penaltyShow := false }
          pending := s.pending.erase t }
      else s
  | Event.tick ok => { s with client := (timerTick s.client ok).1 }
  | Event.clickIdle => { s with client := (idleButtonClick s.client).1 }
  | Event.start m => { s with client := startIntervalTimer m s.client }
  | Event.stop => { s with client := stopIntervalTimer s.client }
  | Event.advance dt => { s with now := s.now + dt }

/-- Number of mode background classes present on the script.js body. -/
def modeClassCount (d : Dom) : Nat :=
  (if d.greenBg then 1 else 0) + (if d.redBg then 1 else 0)
    + (if d.gameOverBg then 1 else 0) + (if d.idleBg then 1 else 0)

/-- Timer-handle bookkeeping invariant: the live intervals are exactly the
one owned by `localTimer` (with the 5000ms period it was registered with),
and its handle is older than the fresh counter. -/
def ClientInv (c : ClientState) : Prop :=
  (∀ τ, c.localTimer = some τ →
      c.activeIntervals = [⟨τ.id, INTERVAL_DURATION_MS⟩] ∧ τ.id < c.nextId)
  ∧ (c.localTimer = none → c.activeIntervals = [])

/-- Page state at load: no timer, no intervals, no scheduled timeouts. -/
def client0 : ClientState := ⟨0, [], none⟩

/-- Initial DOM (empty mode text, no classes, game-over message hidden). -/
def dom0 : Dom := ⟨"", false, false, false, false, true, false, false⟩

/-- Initial page state for script.js. -/
def page0 : PageState := ⟨dom0, client0, [], 0⟩

/-- `runTicks c n` is the client state after the interval callback has fired
`n` times (with successful deliveries; by `timerTick` the state does not
depend on the outcomes). -/
def runTicks (c : ClientState) : Nat → ClientState
  | 0 => c
  | n + 1 => (timerTick (runTicks c n) true).1

/-- The requests issued during the `n`-th firing of the interval callback
(1-indexed). -/
def tickReport (c : ClientState) (n : Nat) : List Request :=
  (timerTick (runTicks c (n - 1)) true).2.1

/-- `flipIter n m` is the closure-local mode after `n` flips starting
from `m`. -/
def flipIter : Nat → Mode → Mode
  | 0, m => m
  | n + 1, m => flipMode (flipIter n m)

/-- A `GET /api/gamestate` response as consumed by the restart poller
(`src/unnamed/part_001`). -/
structure RResp where
  mode : Mode
  total_time : Nat
  interval_timer : Nat
  penalty_flash : Bool
deriving DecidableEq

/-- The DOM pieces the restart poller manipulates.  Note there is no idle
background class in this variant. -/
structure RDom where
  statusText : String
  totalTimeText : String
  intervalTimerText : String
  gameOverText : String
  greenBg : Bool
  redBg : Bool
  gameOverBg : Bool
  gameOverHidden : Bool
  penaltyFlash : Bool
deriving DecidableEq

/-- Page state of the restart poller: DOM, scheduled flash-removal times
and current time (this variant has no toggle timer). -/
structure RPage where
  dom : RDom
  pending : List Nat
  now : Nat
deriving DecidableEq

/-- The mode if-chain of the restart poller's `updateState`
(`src/unnamed/part_001` lines 39-50): add the matching class for GREEN, RED
or GAME_OVER; on GAME_OVER also write the final score and unhide the
message; any other mode adds nothing. -/
def applyModeRestart (m : Mode) (dom : RDom) (totalTime : Nat) : RDom :=
  if m = Mode.GREEN then { dom with greenBg := true }
  else if m = Mode.RED then { dom with redBg := true }
  else if m = Mode.GAME_OVER then
    { dom with
      gameOverBg := true
      gameOverText := "最終スコア: " ++ toString totalTime ++ "秒"
      gameOverHidden := false }
  else dom

/-- `updateState` of the restart poller (`src/unnamed/part_001` lines
24-64).  `resp = none` is the catch path.  On success: write the three text
fields, remove green-bg/red-bg/game-over-bg, hide the game-over message, run
the mode if-chain, then the penalty-flash block with its 500ms timeout. -/
def updateState (resp : Option RResp) (s : RPage) : RPage :=
  match resp with
  | none => { s with dom := { s.dom with statusText := "接続エラー" } }
  | some st =>
      let cleared := { s.dom with
        statusText := modeString st.mode
        totalTimeText := toString st.total_time
        intervalTimerText := toString st.interval_timer
        greenBg := false
        redBg := false
        gameOverBg := false
        gameOverHidden := true }
      let dom1 := applyModeRestart st.mode cleared st.total_time
      let pf := if st.penalty_flash
        then ({ dom1 with penaltyFlash := true }, s.pending ++ [s.now + 500])
        else (dom1, s.pending)
      { dom := pf.1, pending := pf.2, now := s.now }

/-- Events of the restart poller page. -/
inductive REvent where
  | poll (resp : Option RResp)
  | fireFlash (t : Nat)
  | advance (dt : Nat)

/-- Whether a restart-poller event is a poll. -/
def isRPollEvent : REvent → Prop
  | REvent.poll _ => True
  | _ => False

/-- Small-step semantics of the restart poller page. -/
def rstep (s : RPage) : REvent → RPage
  | REvent.poll r => updateState r s
  | REvent.fireFlash t =>
      if t ∈ s.pending then
        { s with
          dom := { s.dom with penaltyFlash := false }
          pending := s.pending.erase t }
      else s
  | REvent.advance dt => { s with now := s.now + dt }

/-- Number of mode background classes present on the restart poller body. -/
def rModeClassCount (d : RDom) : Nat :=
  (if d.greenBg then 1 else 0) + (if d.redBg then 1 else 0)
    + (if d.gameOverBg then 1 else 0)

/-- Initial DOM of the restart poller. -/
def rdom0 : RDom := ⟨"", "", "", "", false, false, false, true, false⟩

/-- Initial page state of the restart poller. -/
def rpage0 : RPage := ⟨rdom0, [], 0⟩

/-- The script.js page right after a successful GREEN poll from load. -/
def pageAfterGreen : PageState :=
  step page0 (Event.poll (some ⟨Mode.GREEN, false⟩))

/-- The restart-poller page right after a successful GREEN poll from load. -/
def rPageAfterGreen : RPage :=
  rstep rpage0 (REvent.poll (some ⟨Mode.GREEN, 0, 0, false⟩))

/-- A client state with a running toggle timer, for concrete witnesses. -/
def clientRunning : ClientState :=
  ⟨1, [⟨0, INTERVAL_DURATION_MS⟩], some ⟨0, Mode.GREEN⟩⟩

/-! Helper lemmas about the timer primitives. -/

theorem start_of_none {c : ClientState} (h : c.localTimer = none) (m : Mode) :
    startIntervalTimer m c =
      { c with
        nextId := c.nextId + 1
        activeIntervals := ⟨c.nextId, INTERVAL_DURATION_MS⟩ :: c.activeIntervals
        localTimer := some ⟨c.nextId, m⟩ } := by
  unfold startIntervalTimer
  rw [h]

theorem start_of_some {c : ClientState} {τ : TimerClosure}
    (h : c.localTimer = some τ) (m : Mode) :
    startIntervalTimer m c = c := by
  unfold startIntervalTimer
  rw [h]

theorem stop_of_none {c : ClientState} (h : c.localTimer = none) :
    stopIntervalTimer c = c := by
  unfold stopIntervalTimer
  rw [h]

theorem stop_of_some {c : ClientState} {τ : TimerClosure}
    (h : c.localTimer = some τ) :
    stopIntervalTimer c =
      { c with
        activeIntervals := c.activeIntervals.filter (fun iv => iv.id != τ.id)
        localTimer := none } := by
  unfold stopIntervalTimer
  rw [h]

theorem stop_localTimer (c : ClientState) :
    (stopIntervalTimer c).localTimer = none := by
  cases h : c.localTimer with
  | none => rw [stop_of_none h, h]
  | some τ => rw [stop_of_some h]

theorem tick_of_none {c : ClientState} (h : c.localTimer = none) (ok : Bool) :
    timerTick c ok = (c, [], []) := by
  unfold timerTick
  rw [h]

theorem tick_of_some {c : ClientState} {τ : TimerClosure}
    (h : c.localTimer = some τ) (ok : Bool) :
    timerTick c ok =
      ({ c with localTimer := some ⟨τ.id, flipMode τ.mode⟩ },
        [Request.setMode (flipMode τ.mode)],
        if ok then [] else [LogEntry.setModeFailed (flipMode τ.mode)]) := by
  unfold timerTick setServerModeEff
  rw [h]

/-! Preservation of the timer-handle invariant. -/

theorem clientInv_start (m : Mode) (c : ClientState) (h : ClientInv c) :
    ClientInv (startIntervalTimer m c) := by
  cases hc : c.localTimer with
  | some τ => rw [start_of_some hc]; exact h
  | none =>
      have hact : c.activeIntervals = [] := h.2 hc
      rw [start_of_none hc]
      refine ⟨?_, ?_⟩
      · rintro τ hτ
        simp only [Option.some.injEq] at hτ
        subst hτ
        simp [hact]
      · intro hnone
        simp at hnone

theorem clientInv_stop (c : ClientState) (h : ClientInv c) :
    ClientInv (stopIntervalTimer c) := by
  cases hc : c.localTimer with
  | none => rw [stop_of_none hc]; exact h
  | some τ =>
      have hact := (h.1 τ hc).1
      rw [stop_of_some hc]
      refine ⟨?_, ?_⟩
      · rintro τ' hτ'
        simp at hτ'
      · intro _
        simp [hact]

theorem clientInv_tick (ok : Bool) (c : ClientState) (h : ClientInv c) :
    ClientInv (timerTick c ok).1 := by
  cases hc : c.localTimer with
  | none => rw [tick_of_none hc]; exact h
  | some τ =>
      have hτ := h.1 τ hc
      rw [tick_of_some hc]
      refine ⟨?_, ?_⟩
      · rintro τ' hτ'
        simp only [Option.some.injEq] at hτ'
        subst hτ'
        exact ⟨hτ.1, hτ.2⟩
      · intro hnone
        simp at hnone

/-! Client-state projections of the poll step. -/

theorem step_poll_client_active (s : PageState) (r : GameStateResp)
    (h : r.mode = Mode.GREEN ∨ r.mode = Mode.RED) :
    (step s (Event.poll (some r))).client = startIntervalTimer r.mode s.client := by
  obtain ⟨m, pf⟩ := r
  rcases h with h | h <;> subst h <;> rfl

theorem step_poll_client_stopped (s : PageState) (r : GameStateResp)
    (h : r.mode = Mode.GAME_OVER ∨ r.mode = Mode.IDLE) :
    (step s (Event.poll (some r))).client = stopIntervalTimer s.client := by
  obtain ⟨m, pf⟩ := r
  rcases h with h | h <;> subst h <;> rfl

theorem clientInv_step (e : Event) (s : PageState) (h : ClientInv s.client) :
    ClientInv (step s e).client := by
  cases e with
  | poll r =>
      cases r with
      | none => exact h
      | some st =>
          rcases hm : st.mode with _ | _ | _ | _
          · rw [step_poll_client_active s st (Or.inl hm), hm]
            exact clientInv_start _ _ h
          · rw [step_poll_client_active s st (Or.inr hm), hm]
            exact clientInv_start _ _ h
          · rw [step_poll_client_stopped s st (Or.inl hm)]
            exact clientInv_stop _ h
          · rw [step_poll_client_stopped s st (Or.inr hm)]
            exact clientInv_stop _ h
  | fireFlash t =>
      by_cases hp : t ∈ s.pending <;> simp [step, hp] <;> exact h
  | tick ok => exact clientInv_tick ok _ h
  | clickIdle => exact clientInv_stop _ h
  | start m => exact clientInv_start m _ h
  | stop => exact clientInv_stop _ h
  | advance dt => exact h

theorem clientInv_run (es : List Event) :
    ∀ s : PageState, ClientInv s.client → ClientInv (List.foldl step s es).client := by
  induction es with
  | nil => intro s h; exact h
  | cons e es ih =>
      intro s h
      exact ih (step s e) (clientInv_step e s h)

theorem clientInv_length_le_one {c : ClientState} (h : ClientInv c) :
    c.activeIntervals.length ≤ 1 := by
  cases hc : c.localTimer with
  | none => simp [h.2 hc]
  | some τ => simp [(h.1 τ hc).1]

/-! Pending penalty-flash timeouts survive any sequence of polls. -/

theorem step_poll_pending_mem (s : PageState) (r : Option GameStateResp)
    {t : Nat} (h : t ∈ s.pending) : t ∈ (step s (Event.poll r)).pending := by
  cases r with
  | none => exact h
  | some st =>
      obtain ⟨m, pf⟩ := st
      cases pf with
      | false => exact h
      | true => exact List.mem_append_left _ h

theorem polls_preserve_pending {t : Nat} (es : List Event) :
    ∀ s : PageState, (∀ e ∈ es, isPollEvent e) → t ∈ s.pending →
      t ∈ (List.foldl step s es).pending := by
  induction es with
  | nil => intro s _ h; exact h
  | cons e es ih =>
      intro s hall h
      have he : isPollEvent e := hall e (List.mem_cons_self e es)
      cases e with
      | poll r =>
          exact ih (step s (Event.poll r))
            (fun x hx => hall x (List.mem_cons_of_mem _ hx))
            (step_poll_pending_mem s r h)
      | fireFlash u => exact he.elim
      | tick ok => exact he.elim
      | clickIdle => exact he.elim
      | start m => exact he.elim
      | stop => exact he.elim
      | advance dt => exact he.elim

theorem fireFlash_clears (s : PageState) (t : Nat) (h : t ∈ s.pending) :
    (step s (Event.fireFlash t)).dom.penaltyFlash = false
    ∧ (step s (Event.fireFlash t)).dom.penaltyShow = false := by
  simp [step, h]

theorem flash_poll_schedules (s : PageState) (r : GameStateResp)
    (h : r.penalty_flash = true) :
    (s.now + 1000) ∈ (step s (Event.poll (some r))).pending := by
  obtain ⟨m, pf⟩ := r
  subst h
  cases m <;> exact List.mem_append_right _ (List.mem_singleton.mpr rfl)

/-! Restart-poller analogues. -/

theorem rstep_poll_pending_mem (s : RPage) (r : Option RResp)
    {t : Nat} (h : t ∈ s.pending) : t ∈ (rstep s (REvent.poll r)).pending := by
  cases r with
  | none => exact h
  | some st =>
      obtain ⟨m, tt, it, pf⟩ := st
      cases pf with
      | false => exact h
      | true => exact List.mem_append_left _ h

theorem rpolls_preserve_pending {t : Nat} (es : List REvent) :
    ∀ s : RPage, (∀ e ∈ es, isRPollEvent e) → t ∈ s.pending →
      t ∈ (List.foldl rstep s es).pending := by
  induction es with
  | nil => intro s _ h; exact h
  | cons e es ih =>
      intro s hall h
      have he : isRPollEvent e := hall e (List.mem_cons_self e es)
      cases e with
      | poll r =>
          exact ih (rstep s (REvent.poll r))
            (fun x hx => hall x (List.mem_cons_of_mem _ hx))
            (rstep_poll_pending_mem s r h)
      | fireFlash u => exact he.elim
      | advance dt => exact he.elim

theorem rfireFlash_clears (s : RPage) (t : Nat) (h : t ∈ s.pending) :
    (rstep s (REvent.fireFlash t)).dom.penaltyFlash = false := by
  simp [rstep, h]

theorem rflash_poll_schedules (s : RPage) (r : RResp)
    (h : r.penalty_flash = true) :
    (s.now + 500) ∈ (rstep s (REvent.poll (some r))).pending := by
  obtain ⟨m, tt, it, pf⟩ := r
  subst h
  cases m <;> exact List.mem_append_right _ (List.mem_singleton.mpr rfl)

/-! Iterated-tick lemmas. -/

theorem runTicks_localTimer (m0 : Mode) (c : ClientState)
    (h : c.localTimer = none) (n : Nat) :
    (runTicks (startIntervalTimer m0 c) n).localTimer
      = some ⟨c.nextId, flipIter n m0⟩ := by
  induction n with
  | zero =>
      show (startIntervalTimer m0 c).localTimer = some ⟨c.nextId, flipIter 0 m0⟩
      rw [start_of_none h]
      rfl
  | succ k ih =>
      show (timerTick (runTicks (startIntervalTimer m0 c) k) true).1.localTimer
        = some ⟨c.nextId, flipIter (k + 1) m0⟩
      rw [tick_of_some ih]
      rfl

theorem tickReport_start (m0 : Mode) (c : ClientState)
    (h : c.localTimer = none) (n : Nat) (hn : 1 ≤ n) :
    tickReport (startIntervalTimer m0 c) n
      = [Request.setMode (flipIter n m0)] := by
  cases n with
  | zero => omega
  | succ k =>
      unfold tickReport
      rw [Nat.succ_sub_one, tick_of_some (runTicks_localTimer m0 c h k)]
      rfl

theorem flipIter_green (n : Nat) :
    flipIter n Mode.GREEN = if n % 2 = 0 then Mode.GREEN else Mode.RED := by
  induction n with
  | zero => rfl
  | succ k ih =>
      show flipMode (flipIter k Mode.GREEN)
        = if (k + 1) % 2 = 0 then Mode.GREEN else Mode.RED
      rw [ih]
      rcases Nat.mod_two_eq_zero_or_one k with h | h
      · have h2 : (k + 1) % 2 = 1 := by omega
        simp [h, h2, flipMode]
      · have h2 : (k + 1) % 2 = 0 := by omega
        simp [h, h2, flipMode]

theorem flipIter_red (n : Nat) :
    flipIter n Mode.RED = if n % 2 = 0 then Mode.RED else Mode.GREEN := by
  induction n with
  | zero => rfl
  | succ k ih =>
      show flipMode (flipIter k Mode.RED)
        = if (k + 1) % 2 = 0 then Mode.RED else Mode.GREEN
      rw [ih]
      rcases Nat.mod_two_eq_zero_or_one k with h | h
      · have h2 : (k + 1) % 2 = 1 := by omega
        simp [h, h2, flipMode]
      · have h2 : (k + 1) % 2 = 0 := by omega
        simp [h, h2, flipMode]

/-! Claim theorems. -/

/-- C1: On every successful poll, a reported mode of GREEN or RED leaves the
Mode Toggle Timer running afterwards (starting it if it was idle, and leaving
an already-running instance untouched), while GAME_OVER or IDLE leaves it
stopped; in particular, for the poll sequence [GREEN, RED, GAME_OVER] from a
state with no timer, the timer starts at the GREEN poll, the very same
instance persists across the RED poll, and it is stopped exactly at the
GAME_OVER poll. -/
theorem poll_mode_controls_timer (s : PageState) (r : GameStateResp)
    (p1 p2 p3 : Bool) :
    ((r.mode = Mode.GREEN ∨ r.mode = Mode.RED) →
      (step s (Event.poll (some r))).client.localTimer.isSome = true
      ∧ (∀ τ, s.client.localTimer = some τ →
          (step s (Event.poll (some r))).client.localTimer = some τ))
    ∧ ((r.mode = Mode.GAME_OVER ∨ r.mode = Mode.IDLE) →
      (step s (Event.poll (some r))).client.localTimer = none)
    ∧ (s.client.localTimer = none →
      (step s (Event.poll (some ⟨Mode.GREEN, p1⟩))).client.localTimer
          = some ⟨s.client.nextId, Mode.GREEN⟩
      ∧ (step (step s (Event.poll (some ⟨Mode.GREEN, p1⟩)))
            (Event.poll (some ⟨Mode.RED, p2⟩))).client.localTimer
          = some ⟨s.client.nextId, Mode.GREEN⟩
      ∧ (step (step (step s (Event.poll (some ⟨Mode.GREEN, p1⟩)))
            (Event.poll (some ⟨Mode.RED, p2⟩)))
            (Event.poll (some ⟨Mode.GAME_OVER, p3⟩))).client.localTimer
          = none) := by
  refine ⟨?_, ?_, ?_⟩
  · intro hm
    rw [step_poll_client_active s r hm]
    constructor
    · cases hc : s.client.localTimer with
      | some τ => rw [start_of_some hc, hc]; rfl
      | none => rw [start_of_none hc]; rfl
    · intro τ hτ
      rw [start_of_some hτ]
      exact hτ
  · intro hm
    rw [step_poll_client_stopped s r hm]
    exact stop_localTimer _
  · intro h0
    have l1 : (step s (Event.poll (some ⟨Mode.GREEN, p1⟩))).client.localTimer
        = some ⟨s.client.nextId, Mode.GREEN⟩ := by
      rw [step_poll_client_active s ⟨Mode.GREEN, p1⟩ (Or.inl rfl),
        start_of_none h0]
    have l2 : (step (step s (Event.poll (some ⟨Mode.GREEN, p1⟩)))
        (Event.poll (some ⟨Mode.RED, p2⟩))).client.localTimer
        = some ⟨s.client.nextId, Mode.GREEN⟩ := by
      rw [step_poll_client_active _ ⟨Mode.RED, p2⟩ (Or.inr rfl),
        start_of_some l1]
      exact l1
    have l3 : (step (step (step s (Event.poll (some ⟨Mode.GREEN, p1⟩)))
        (Event.poll (some ⟨Mode.RED, p2⟩)))
        (Event.poll (some ⟨Mode.GAME_OVER, p3⟩))).client.localTimer = none := by
      rw [step_poll_client_stopped _ ⟨Mode.GAME_OVER, p3⟩ (Or.inl rfl)]
      exact stop_localTimer _
    exact ⟨l1, l2, l3⟩

/-- C1 witness at concrete inputs. -/
theorem poll_mode_controls_timer_witness :
    (step page0 (Event.poll (some ⟨Mode.GREEN, false⟩))).client.localTimer.isSome
        = true
    ∧ (step page0 (Event.poll (some ⟨Mode.GAME_OVER, false⟩))).client.localTimer
        = none
    ∧ (step page0 (Event.poll (some ⟨Mode.GREEN, false⟩))).client.localTimer
        = some ⟨0, Mode.GREEN⟩ :=
  ⟨((poll_mode_controls_timer page0 ⟨Mode.GREEN, false⟩ false false false).1
      (Or.inl rfl)).1,
    (poll_mode_controls_timer page0 ⟨Mode.GAME_OVER, false⟩ false false false).2.1
      (Or.inl rfl),
    ((poll_mode_controls_timer page0 ⟨Mode.GREEN, false⟩ false false false).2.2
      rfl).1⟩

/-- C2: At most one Mode Toggle Timer instance is ever active: calling
`startIntervalTimer` while the handle is set is a no-op (no second interval,
no change at all to the state, in particular the running closure's mode
variant), and along every event sequence from page load the set of live
intervals never holds more than one element. -/
theorem at_most_one_timer :
    (∀ (m : Mode) (c : ClientState), c.localTimer.isSome = true →
      startIntervalTimer m c = c)
    ∧ (∀ es : List Event,
      (List.foldl step page0 es).client.activeIntervals.length ≤ 1) := by
  constructor
  · intro m c h
    cases hc : c.localTimer with
    | none => rw [hc] at h; simp at h
    | some τ => exact start_of_some hc m
  · intro es
    have h0 : ClientInv page0.client :=
      ⟨fun τ hτ => Option.noConfusion hτ, fun _ => rfl⟩
    exact clientInv_length_le_one (clientInv_run es page0 h0)

/-- C2 witness at concrete inputs. -/
theorem at_most_one_timer_witness :
    startIntervalTimer Mode.RED clientRunning = clientRunning
    ∧ (List.foldl step page0
        [Event.poll (some ⟨Mode.GREEN, false⟩),
          Event.poll (some ⟨Mode.RED, true⟩), Event.tick true,
          Event.poll (some ⟨Mode.GREEN, false⟩)]).client.activeIntervals.length
        ≤ 1 :=
  ⟨at_most_one_timer.1 Mode.RED clientRunning rfl,
    at_most_one_timer.2
      [Event.poll (some ⟨Mode.GREEN, false⟩),
        Event.poll (some ⟨Mode.RED, true⟩), Event.tick true,
        Event.poll (some ⟨Mode.GREEN, false⟩)]⟩

/-- C3 counterexample: in the restart-poller variant
(`src/unnamed/part_001`), a successful poll reporting IDLE does not leave
exactly one mode background class — it removes the previously present
green-bg and applies nothing, leaving zero mode classes. -/
theorem renderer_idle_no_class_counterexample :
    rModeClassCount
      (updateState (some ⟨Mode.IDLE, 0, 0, false⟩) rPageAfterGreen).dom ≠ 1 := by
  have h : rModeClassCount
      (updateState (some ⟨Mode.IDLE, 0, 0, false⟩) rPageAfterGreen).dom = 0 := rfl
  omega

/-- C3 (amended): the toggle-client renderer (script.js) clears all four mode
background classes and applies exactly the one matching the reported mode, so
after any successful poll exactly one class is present, for every mode.  The
restart-poller renderer (`src/unnamed/part_001`) clears
green-bg/red-bg/game-over-bg and applies the matching class only for GREEN,
RED and GAME_OVER; a poll reporting IDLE leaves zero mode classes. -/
theorem renderer_mode_classes (s : PageState) (r : GameStateResp)
    (t : RPage) (q : RResp) :
    modeClassCount (step s (Event.poll (some r))).dom = 1
    ∧ (step s (Event.poll (some r))).dom.greenBg = decide (r.mode = Mode.GREEN)
    ∧ (step s (Event.poll (some r))).dom.redBg = decide (r.mode = Mode.RED)
    ∧ (step s (Event.poll (some r))).dom.gameOverBg
        = decide (r.mode = Mode.GAME_OVER)
    ∧ (step s (Event.poll (some r))).dom.idleBg = decide (r.mode = Mode.IDLE)
    ∧ ((q.mode = Mode.GREEN ∨ q.mode = Mode.RED ∨ q.mode = Mode.GAME_OVER) →
      rModeClassCount (updateState (some q) t).dom = 1
      ∧ (updateState (some q) t).dom.greenBg = decide (q.mode = Mode.GREEN)
      ∧ (updateState (some q) t).dom.redBg = decide (q.mode = Mode.RED)
      ∧ (updateState (some q) t).dom.gameOverBg
          = decide (q.mode = Mode.GAME_OVER))
    ∧ (q.mode = Mode.IDLE → rModeClassCount (updateState (some q) t).dom = 0) := by
  obtain ⟨m, pf⟩ := r
  obtain ⟨qm, qtt, qit, qpf⟩ := q
  cases m <;> cases pf <;> cases qm <;> cases qpf <;>
    simp [step, updateStateFromServer, updateState, applyMode, applyModeRestart,
      applyPenaltyFlash, modeClassCount, rModeClassCount, modeString]

/-- C3 witness at concrete inputs. -/
theorem renderer_mode_classes_witness :
    modeClassCount (step page0 (Event.poll (some ⟨Mode.RED, false⟩))).dom = 1
    ∧ rModeClassCount (updateState (some ⟨Mode.RED, 3, 4, false⟩) rpage0).dom = 1
    ∧ rModeClassCount (updateState (some ⟨Mode.IDLE, 3, 4, false⟩) rpage0).dom
        = 0 :=
  ⟨(renderer_mode_classes page0 ⟨Mode.RED, false⟩ rpage0 ⟨Mode.RED, 3, 4, false⟩).1,
    ((renderer_mode_classes page0 ⟨Mode.RED, false⟩ rpage0
        ⟨Mode.RED, 3, 4, false⟩).2.2.2.2.2.1 (Or.inr (Or.inl rfl))).1,
    (renderer_mode_classes page0 ⟨Mode.RED, false⟩ rpage0
        ⟨Mode.IDLE, 3, 4, false⟩).2.2.2.2.2.2 rfl⟩

/-- C4 counterexample: a failed poll does alter visual state produced by the
last successful poll — after a successful GREEN poll the mode text reads
GREEN, and the catch path overwrites it with the connection-error message. -/
theorem fetch_failure_changes_text_counterexample :
    (step pageAfterGreen (Event.poll none)).dom.modeText
      ≠ pageAfterGreen.dom.modeText := by
  have h1 : (step pageAfterGreen (Event.poll none)).dom.modeText
      = "接続エラー" := rfl
  have h2 : pageAfterGreen.dom.modeText = "GREEN" := rfl
  rw [h1, h2]
  decide

/-- C4 (amended): a failed poll (network error or non-OK status) leaves the
mode background classes, the game-over message visibility, the penalty-flash
state, the timer client state and the scheduled timeouts unchanged in both
variants; the only visual change of the catch path is overwriting the status
text with the connection-error message. -/
theorem fetch_failure_preserves_classes (s : PageState) (t : RPage) :
    (step s (Event.poll none)).dom.greenBg = s.dom.greenBg
    ∧ (step s (Event.poll none)).dom.redBg = s.dom.redBg
    ∧ (step s (Event.poll none)).dom.gameOverBg = s.dom.gameOverBg
    ∧ (step s (Event.poll none)).dom.idleBg = s.dom.idleBg
    ∧ (step s (Event.poll none)).dom.gameOverHidden = s.dom.gameOverHidden
    ∧ (step s (Event.poll none)).dom.penaltyFlash = s.dom.penaltyFlash
    ∧ (step s (Event.poll none)).dom.penaltyShow = s.dom.penaltyShow
    ∧ (step s (Event.poll none)).client = s.client
    ∧ (step s (Event.poll none)).pending = s.pending
    ∧ (step s (Event.poll none)).dom.modeText = "接続エラー"
    ∧ (updateState none t).dom.greenBg = t.dom.greenBg
    ∧ (updateState none t).dom.redBg = t.dom.redBg
    ∧ (updateState none t).dom.gameOverBg = t.dom.gameOverBg
    ∧ (updateState none t).dom.gameOverHidden = t.dom.gameOverHidden
    ∧ (updateState none t).dom.penaltyFlash = t.dom.penaltyFlash
    ∧ (updateState none t).pending = t.pending
    ∧ (updateState none t).dom.statusText = "接続エラー" :=
  ⟨rfl, rfl, rfl, rfl, rfl, rfl, rfl, rfl, rfl, rfl, rfl, rfl, rfl, rfl, rfl,
    rfl, rfl⟩

/-- C5: `startIntervalTimer` on an idle handle registers exactly one interval
with fixed period `INTERVAL_DURATION_MS = 5000` whose closure captures the
initial mode, and each firing of its callback flips the closure-local mode
(GREEN to RED and RED to GREEN) and reports exactly the post-flip value via
`POST /api/setmode`, changing nothing else in the client state. -/
theorem start_timer_contract (m0 : Mode) (s : ClientState)
    (h : s.localTimer = none) :
    startIntervalTimer m0 s =
      { s with
        nextId := s.nextId + 1
        activeIntervals := ⟨s.nextId, INTERVAL_DURATION_MS⟩ :: s.activeIntervals
        localTimer := some ⟨s.nextId, m0⟩ }
    ∧ INTERVAL_DURATION_MS = 5000
    ∧ (∀ (c : ClientState) (τ : TimerClosure) (ok : Bool),
        c.localTimer = some τ →
        (timerTick c ok).1 = { c with localTimer := some ⟨τ.id, flipMode τ.mode⟩ }
        ∧ (timerTick c ok).2.1 = [Request.setMode (flipMode τ.mode)])
    ∧ flipMode Mode.GREEN = Mode.RED ∧ flipMode Mode.RED = Mode.GREEN := by
  refine ⟨start_of_none h m0, rfl, ?_, rfl, rfl⟩
  intro c τ ok hτ
  rw [tick_of_some hτ]
  exact ⟨rfl, rfl⟩

/-- C5 witness at concrete inputs. -/
theorem start_timer_contract_witness :
    startIntervalTimer Mode.GREEN client0 =
      { nextId := 1, activeIntervals := [⟨0, 5000⟩],
        localTimer := some ⟨0, Mode.GREEN⟩ }
    ∧ (timerTick clientRunning true).2.1 = [Request.setMode Mode.RED] :=
  ⟨(start_timer_contract Mode.GREEN client0 rfl).1,
    ((start_timer_contract Mode.GREEN client0 rfl).2.2.1 clientRunning
      ⟨0, Mode.GREEN⟩ true rfl).2⟩

/-- C6: a successful poll with `penalty_flash = true` schedules a removal of
the flash classes after the variant's fixed duration (1000ms in the
toggle client, 500ms in the restart poller); the scheduled removal survives
any further polls — successful or failed, with or without `penalty_flash` —
and when it fires the flash class is absent. -/
theorem penalty_flash_self_clears :
    (∀ (s : PageState) (r : GameStateResp) (es : List Event),
      r.penalty_flash = true →
      (∀ e ∈ es, isPollEvent e) →
      (s.now + 1000) ∈ (step s (Event.poll (some r))).pending
      ∧ (s.now + 1000) ∈ (List.foldl step (step s (Event.poll (some r))) es).pending
      ∧ (step (List.foldl step (step s (Event.poll (some r))) es)
          (Event.fireFlash (s.now + 1000))).dom.penaltyFlash = false
      ∧ (step (List.foldl step (step s (Event.poll (some r))) es)
          (Event.fireFlash (s.now + 1000))).dom.penaltyShow = false)
    ∧ (∀ (t : RPage) (q : RResp) (fs : List REvent),
      q.penalty_flash = true →
      (∀ e ∈ fs, isRPollEvent e) →
      (t.now + 500) ∈ (rstep t (REvent.poll (some q))).pending
      ∧ (t.now + 500)
          ∈ (List.foldl rstep (rstep t (REvent.poll (some q))) fs).pending
      ∧ (rstep (List.foldl rstep (rstep t (REvent.poll (some q))) fs)
          (REvent.fireFlash (t.now + 500))).dom.penaltyFlash = false) := by
  constructor
  · intro s r es hr hes
    have h1 := flash_poll_schedules s r hr
    have h2 := polls_preserve_pending es _ hes h1
    obtain ⟨hf1, hf2⟩ := fireFlash_clears _ _ h2
    exact ⟨h1, h2, hf1, hf2⟩
  · intro t q fs hq hfs
    have h1 := rflash_poll_schedules t q hq
    have h2 := rpolls_preserve_pending fs _ hfs h1
    exact ⟨h1, h2, rfireFlash_clears _ _ h2⟩

/-- C6 witness at concrete inputs. -/
theorem penalty_flash_self_clears_witness :
    (step (List.foldl step (step page0 (Event.poll (some ⟨Mode.GREEN, true⟩)))
        [Event.poll none])
      (Event.fireFlash (page0.now + 1000))).dom.penaltyFlash = false
    ∧ (rstep (List.foldl rstep
          (rstep rpage0 (REvent.poll (some ⟨Mode.RED, 0, 0, true⟩))) [])
        (REvent.fireFlash (rpage0.now + 500))).dom.penaltyFlash = false :=
  ⟨(penalty_flash_self_clears.1 page0 ⟨Mode.GREEN, true⟩ [Event.poll none] rfl
      (fun e he => by rw [List.mem_singleton] at he; subst he; exact trivial)).2.2.1,
    (penalty_flash_self_clears.2 rpage0 ⟨Mode.RED, 0, 0, true⟩ [] rfl
      (fun e he => absurd he (List.not_mem_nil e))).2.2⟩

/-- C7: when the server report of a timer tick fails, the failure is logged
and the request was attempted exactly once (no retry); the resulting client
state (closure-local mode and handle) and the reported value are identical
to the success run, and so is the value reported on the next tick. -/
theorem tick_report_failure_isolated (c : ClientState) (ok ok2 : Bool) :
    (timerTick c ok).1 = (timerTick c true).1
    ∧ (timerTick c ok).2.1 = (timerTick c true).2.1
    ∧ (timerTick (timerTick c ok).1 ok2).1 = (timerTick (timerTick c true).1 true).1
    ∧ (timerTick (timerTick c ok).1 ok2).2.1
        = (timerTick (timerTick c true).1 true).2.1
    ∧ (∀ m : Mode, setServerModeEff m false
        = ([Request.setMode m], [LogEntry.setModeFailed m]))
    ∧ (∀ m : Mode, setServerModeEff m true = ([Request.setMode m], [])) := by
  have key : ∀ (d : ClientState) (b : Bool),
      (timerTick d b).1 = (timerTick d true).1
      ∧ (timerTick d b).2.1 = (timerTick d true).2.1 := by
    intro d b
    cases hd : d.localTimer with
    | none => simp [tick_of_none hd]
    | some τ => simp [tick_of_some hd]
  refine ⟨(key c ok).1, (key c ok).2, ?_, ?_, fun m => rfl, fun m => rfl⟩
  · rw [(key c ok).1]
    exact (key _ ok2).1
  · rw [(key c ok).1]
    exact (key _ ok2).2

/-- C8: `stopIntervalTimer` is idempotent — stopping a running timer cancels
the interval and clears the handle, a second stop changes nothing and issues
no further `clearInterval`, and stopping an idle handle is a no-op. -/
theorem stop_idempotent (s : ClientState) :
    stopIntervalTimer (stopIntervalTimer s) = stopIntervalTimer s
    ∧ (stopIntervalTimer s).localTimer = none
    ∧ stopCancellations (stopIntervalTimer s) = []
    ∧ (s.localTimer = none → stopIntervalTimer s = s) := by
  have hnone := stop_localTimer s
  refine ⟨stop_of_none hnone, hnone, ?_, fun h => stop_of_none h⟩
  unfold stopCancellations
  rw [hnone]

/-- C8 witness at concrete inputs. -/
theorem stop_idempotent_witness :
    stopIntervalTimer (stopIntervalTimer clientRunning)
        = stopIntervalTimer clientRunning
    ∧ stopIntervalTimer client0 = client0 :=
  ⟨(stop_idempotent clientRunning).1, (stop_idempotent client0).2.2.2 rfl⟩

/-- C9: the idle-button click handler stops any active Mode Toggle Timer
(clearing the handle, and — under the bookkeeping invariant — leaving no
live interval to fire further flips) and issues exactly one request, setting
the server mode to IDLE; the `clearInterval`, when present, precedes the
request. -/
theorem idle_click_stops_and_reports (c : ClientState) :
    (idleButtonClick c).1 = stopIntervalTimer c
    ∧ (idleButtonClick c).1.localTimer = none
    ∧ (idleButtonClick c).2.filter UiAction.isRequestAction
        = [UiAction.request (Request.setMode Mode.IDLE)]
    ∧ ((∃ τ, c.localTimer = some τ
        ∧ (idleButtonClick c).2
            = [UiAction.clearTimer τ.id,
                UiAction.request (Request.setMode Mode.IDLE)])
      ∨ (c.localTimer = none
        ∧ (idleButtonClick c).2 = [UiAction.request (Request.setMode Mode.IDLE)]))
    ∧ (ClientInv c → (idleButtonClick c).1.activeIntervals = []) := by
  refine ⟨rfl, stop_localTimer c, ?_, ?_, ?_⟩
  · cases hc : c.localTimer with
    | none =>
        unfold idleButtonClick stopCancellations
        rw [hc]
        rfl
    | some τ =>
        unfold idleButtonClick stopCancellations
        rw [hc]
        rfl
  · cases hc : c.localTimer with
    | some τ =>
        refine Or.inl ⟨τ, rfl, ?_⟩
        unfold idleButtonClick stopCancellations
        rw [hc]
        rfl
    | none =>
        refine Or.inr ⟨rfl, ?_⟩
        unfold idleButtonClick stopCancellations
        rw [hc]
        rfl
  · intro hinv
    exact (clientInv_stop c hinv).2 (stop_localTimer c)

/-- C9 witness at concrete inputs. -/
theorem idle_click_stops_and_reports_witness :
    (idleButtonClick clientRunning).1.localTimer = none
    ∧ (idleButtonClick clientRunning).1.activeIntervals = [] := by
  have hinv : ClientInv clientRunning :=
    ⟨fun τ hτ => by injection hτ with h; subst h; exact ⟨rfl, Nat.one_pos⟩,
      fun h => Option.noConfusion h⟩
  exact ⟨(idle_click_stops_and_reports clientRunning).2.1,
    (idle_click_stops_and_reports clientRunning).2.2.2.2 hinv⟩

/-- C10: starting the timer with `startIntervalTimer m0` never reports `m0`
first: the first tick reports the opposite of `m0` (RED for GREEN, GREEN
otherwise), the n-th tick reports `flipIter n m0`, and for the GREEN/RED
starts actually reachable in the program the n-th report equals `m0` exactly
when n is even — the reported sequence strictly alternates starting from the
opposite of the start value. -/
theorem tick_reports_alternate (m0 : Mode) (s : ClientState)
    (h : s.localTimer = none) (n : Nat) (hn : 1 ≤ n) :
    tickReport (startIntervalTimer m0 s) n = [Request.setMode (flipIter n m0)]
    ∧ tickReport (startIntervalTimer m0 s) 1
        = [Request.setMode (if m0 = Mode.GREEN then Mode.RED else Mode.GREEN)]
    ∧ ((m0 = Mode.GREEN ∨ m0 = Mode.RED) → (flipIter n m0 = m0 ↔ n % 2 = 0))
    ∧ ((m0 = Mode.GREEN ∨ m0 = Mode.RED) → flipMode m0 ≠ m0) := by
  refine ⟨tickReport_start m0 s h n hn, ?_, ?_, ?_⟩
  · rw [tickReport_start m0 s h 1 (le_refl 1)]
    rfl
  · rintro (rfl | rfl)
    · rcases Nat.mod_two_eq_zero_or_one n with h2 | h2 <;>
        simp [flipIter_green, h2]
    · rcases Nat.mod_two_eq_zero_or_one n with h2 | h2 <;>
        simp [flipIter_red, h2]
  · rintro (rfl | rfl) <;> decide

/-- C10 witness at concrete inputs. -/
theorem tick_reports_alternate_witness :
    tickReport (startIntervalTimer Mode.GREEN client0) 2
        = [Request.setMode Mode.GREEN]
    ∧ (flipIter 2 Mode.GREEN = Mode.GREEN ↔ 2 % 2 = 0)
    ∧ tickReport (startIntervalTimer Mode.GREEN client0) 1
        = [Request.setMode Mode.RED] :=
  ⟨(tick_reports_alternate Mode.GREEN client0 rfl 2 (by decide)).1,
    (tick_reports_alternate Mode.GREEN client0 rfl 2 (by decide)).2.2.1
      (Or.inl rfl),
    (tick_reports_alternate Mode.GREEN client0 rfl 2 (by decide)).2.1⟩

end EscapeMonitor
